import Mathlib

/-!
Shallow embedding of the inventory/shipment backend (src/main.py, src/schemas.py).

The document store state is a `DB`: the `inventorymovement` collection (append-only
list), the `stock` collection (list of snapshot documents keyed by warehouse/item),
and the `shipment` collection (documents keyed by their ObjectId, modelled as `Nat`).
Quantities are `float` in the source; they are modelled as `ℚ` (no float rounding is
exercised by any property here). Each Mongo call (`find_one`, `update_one`,
`insert_one`) is one atomic step on the state.
-/

namespace Inventory

/-- schemas.py `MovementItem`: a shipment line `{item_id, quantity}` (pydantic
requires `quantity > 0` at construction). -/
structure MovementItem where
  item_id : String
  quantity : ℚ
deriving DecidableEq

/-- schemas.py `InventoryMovement`: the POST /inventory/move request body. The
pydantic schema constrains only `quantity` (`gt=0`); `type` is a bare `str`
(its description says "in | out" but nothing enforces it). -/
structure InventoryMovement where
  type : String
  warehouse_id : String
  item_id : String
  quantity : ℚ
  reference : Option String := none
  notes : Option String := none
  related_id : Option String := none
deriving DecidableEq

/-- A document of the `stock` snapshot collection: `{warehouse_id, item_id, quantity}`. -/
structure StockDoc where
  warehouse_id : String
  item_id : String
  quantity : ℚ
deriving DecidableEq

/-- schemas.py `Shipment` document as stored by `create_shipment` (carrier/tracking
metadata omitted: no in-scope code reads it). -/
structure Shipment where
  shipment_no : String
  origin_warehouse_id : String
  destination_warehouse_id : Option String := none
  destination_name : Option String := none
  status : String := "created"
  items : List MovementItem
deriving DecidableEq

/-- The document store: the three collections the in-scope handlers touch. -/
structure DB where
  movements : List InventoryMovement := []
  stock : List StockDoc := []
  shipments : List (Nat × Shipment) := []
deriving DecidableEq

/-- Error taxonomy surfaced by the endpoints (HTTPException / pydantic rejection). -/
inductive Err where
  | validationError
  | notFound
  | storageError
deriving DecidableEq

/-- Python truthiness of an optional string (`if warehouse_id:`,
`if ship.get("destination_warehouse_id"):`): `None` and `""` are falsy. -/
def truthyStr : Option String → Bool
  | none => false
  | some s => decide (s ≠ "")

/-- Embeds `db["stock"].find_one({"warehouse_id": w, "item_id": i})`: first document of the
collection matching the key. -/
def stockFind : List StockDoc → String → String → Option StockDoc
  | [], _, _ => none
  | d :: rest, w, i =>
    if d.warehouse_id = w ∧ d.item_id = i then some d else stockFind rest w i

/-- Embeds `db["stock"].update_one(key, {"$set": {"quantity": q}})`: sets the quantity of the
first document matching the key. -/
def stockUpdate : List StockDoc → String → String → ℚ → List StockDoc
  | [], _, _, _ => []
  | d :: rest, w, i, q =>
    if d.warehouse_id = w ∧ d.item_id = i then { d with quantity := q } :: rest
    else d :: stockUpdate rest w i q

/-- The quantity the snapshot collection holds for a (warehouse, item) key:
`doc.get("quantity", 0) if doc else 0` (line 123 of main.py). -/
def stockQty (db : DB) (w i : String) : ℚ :=
  match stockFind db.stock w i with
  | some d => d.quantity
  | none => 0

/-- Endpoint `POST /inventory/move` (main.py lines 115–129), composed with the framework's
pydantic validation of the body (schemas.py `InventoryMovement`: `quantity` must be
`> 0`; nothing else is checked). On rejection the handler body never runs, so the
state is returned unchanged. On acceptance: append the movement record, read the
stock snapshot, add the quantity if `type == "in"` and subtract it otherwise, then
update or insert the snapshot document. -/
def inventory_move (db : DB) (mv : InventoryMovement) : DB × Except Err ℚ :=
  if 0 < mv.quantity then
    let db1 : DB := { db with movements := db.movements ++ [mv] }
    let doc? := stockFind db1.stock mv.warehouse_id mv.item_id
    let qty0 : ℚ := match doc? with | some d => d.quantity | none => 0
    let qty : ℚ := if mv.type = "in" then qty0 + mv.quantity else qty0 - mv.quantity
    let stock' : List StockDoc :=
      match doc? with
      | some _ => stockUpdate db1.stock mv.warehouse_id mv.item_id qty
      | none => db1.stock ++ [⟨mv.warehouse_id, mv.item_id, qty⟩]
    ({ db1 with stock := stock' }, .ok qty)
  else (db, .error .validationError)

/-- Modelled from the spec: `create_document` lives in database.py, which is not under
src/; per §4.2 persisting the movement record may fail with `StorageError`, and the
insert is atomic (on failure nothing is written). The `persistOk` flag is the oracle
for that outcome. The handler (main.py 115–129) calls `create_document` first and
only then touches the stock snapshot, so a persistence failure propagates before any
stock read or write. -/
def inventory_move_storage (persistOk : Bool) (db : DB) (mv : InventoryMovement) :
    DB × Except Err ℚ :=
  if 0 < mv.quantity then
    if persistOk then inventory_move db mv
    else (db, .error .storageError)
  else (db, .error .validationError)

/-- Endpoint `GET /inventory/stock` (main.py lines 132–142): filter the stock collection by the
truthy query params and cap at `limit`. -/
def get_stock (db : DB) (warehouse_id item_id : Option String) (limit : Nat) :
    List StockDoc :=
  (db.stock.filter fun d =>
    (if truthyStr warehouse_id then decide (d.warehouse_id = warehouse_id.getD "") else true)
    && (if truthyStr item_id then decide (d.item_id = item_id.getD "") else true)
  ).take limit

/-- Embeds `db["shipment"].find_one({"_id": id})`. -/
def findShipment : List (Nat × Shipment) → Nat → Option Shipment
  | [], _ => none
  | p :: rest, sid => if p.1 = sid then some p.2 else findShipment rest sid

/-- Embeds `db["shipment"].update_one({"_id": id}, {"$set": {"status": st}})`: rewrite the
status of the first document with that id. -/
def setShipmentStatus : List (Nat × Shipment) → Nat → String → List (Nat × Shipment)
  | [], _, _ => []
  | p :: rest, sid, st =>
    if p.1 = sid then (p.1, { p.2 with status := st }) :: rest
    else p :: setShipmentStatus rest sid st

/-- Stored status of a shipment, for stating properties. -/
def shipmentStatus (db : DB) (sid : Nat) : Option String :=
  (findShipment db.shipments sid).map (·.status)

/-- The out-movement `update_shipment_status` builds for a line on `status == "picked"`
(main.py line 175). -/
def outMove (ship : Shipment) (it : MovementItem) : InventoryMovement :=
  ⟨"out", ship.origin_warehouse_id, it.item_id, it.quantity, some ship.shipment_no,
    none, none⟩

/-- The in-movement `update_shipment_status` builds for a line on `status == "delivered"`
(main.py line 181). -/
def inMove (ship : Shipment) (it : MovementItem) : InventoryMovement :=
  ⟨"in", ship.destination_warehouse_id.getD "", it.item_id, it.quantity,
    some ship.shipment_no, none, none⟩

/-- The loop `for it in ship.get("items", []): inventory_move(mv)`: each call commits
its own writes; an exception from a later line propagates with the earlier lines'
effects already in place. -/
def processLines (db : DB) : List InventoryMovement → DB × Except Err Unit
  | [] => (db, .ok ())
  | m :: rest =>
    let r := inventory_move db m
    match r.2 with
    | .error e => (r.1, .error e)
    | .ok _ => processLines r.1 rest

/-- Body of `PATCH /shipments/{id}/status` after the `find_one` read (main.py lines
168–184), parameterised by the shipment snapshot `ship` that read returned: the
status is written unconditionally, then movements are emitted if the requested status
is "picked" (out from origin, per line) or "delivered" (in to destination, per line,
only when the destination id is truthy). -/
def continueUpdate (db : DB) (sid : Nat) (ship : Shipment) (status : String) :
    DB × Except Err String :=
  let db1 : DB := { db with shipments := setShipmentStatus db.shipments sid status }
  let s1 : DB × Except Err Unit :=
    if status = "picked" then processLines db1 (ship.items.map (outMove ship))
    else (db1, .ok ())
  match s1.2 with
  | .error e => (s1.1, .error e)
  | .ok _ =>
    let s2 : DB × Except Err Unit :=
      if status = "delivered" then
        if truthyStr ship.destination_warehouse_id then
          processLines s1.1 (ship.items.map (inMove ship))
        else (s1.1, .ok ())
      else (s1.1, .ok ())
    match s2.2 with
    | .error e => (s2.1, .error e)
    | .ok _ => (s2.1, .ok status)

/-- Endpoint `PATCH /shipments/{id}/status` (main.py lines 162–184): look the shipment up
(404 when absent), then run the body on the snapshot that read returned. -/
def update_shipment_status (db : DB) (sid : Nat) (status : String) :
    DB × Except Err String :=
  match findShipment db.shipments sid with
  | none => (db, .error .notFound)
  | some ship => continueUpdate db sid ship status

/-- Modelled interleaving for the §5 race: two callers invoke the PATCH handler on the
same shipment id and both `find_one` reads execute before either caller performs a
write, so both continue from the same snapshot. Every individual store operation
stays atomic; this is one legal schedule of the two handlers. -/
def raceBothRead (db : DB) (sid : Nat) (status : String) :
    DB × Except Err String × Except Err String :=
  match findShipment db.shipments sid with
  | none => (db, .error .notFound, .error .notFound)
  | some ship =>
    let r1 := continueUpdate db sid ship status
    let r2 := continueUpdate r1.1 sid ship status
    (r2.1, r1.2, r2.2)

/-- The signed delta line 124 applies to the snapshot: `+quantity` when
`type == "in"`, `-quantity` for every other type string. -/
def moveDelta (mv : InventoryMovement) : ℚ :=
  if mv.type = "in" then mv.quantity else -mv.quantity

/-- Sum of the quantities of the recorded movements with `type = "in"` on a key
(the spec's replay of the ledger, "in" side). -/
def inSum (ms : List InventoryMovement) (w i : String) : ℚ :=
  (ms.map fun m =>
    if m.warehouse_id = w ∧ m.item_id = i ∧ m.type = "in" then m.quantity else 0).sum

/-- Sum of the quantities of the recorded movements with `type = "out"` on a key
(the spec's replay of the ledger, "out" side). -/
def outSum (ms : List InventoryMovement) (w i : String) : ℚ :=
  (ms.map fun m =>
    if m.warehouse_id = w ∧ m.item_id = i ∧ m.type = "out" then m.quantity else 0).sum

/-- Signed replay of the recorded movements on a key, with the sign convention the
code actually applies (line 124). -/
def ledgerSum (ms : List InventoryMovement) (w i : String) : ℚ :=
  (ms.map fun m =>
    if m.warehouse_id = w ∧ m.item_id = i then moveDelta m else 0).sum

/-- Apply a sequence of POST /inventory/move requests, keeping the state each call
leaves behind (a rejected call leaves it unchanged). -/
def applyMoves (db : DB) : List InventoryMovement → DB
  | [] => db
  | m :: rest => applyMoves (inventory_move db m).1 rest

/-- The empty document store a fresh deployment starts from. -/
def freshDB : DB := { movements := [], stock := [], shipments := [] }

/-! ### Lemmas about the stock snapshot collection -/

lemma stockFind_update_other (l : List StockDoc) (wu iu : String) (q : ℚ) (w i : String)
    (h : ¬(wu = w ∧ iu = i)) :
    stockFind (stockUpdate l wu iu q) w i = stockFind l w i := by
  induction l with
  | nil => rfl
  | cons d rest ih =>
    by_cases hu : d.warehouse_id = wu ∧ d.item_id = iu
    · have hq : ¬(d.warehouse_id = w ∧ d.item_id = i) := by
        rintro ⟨h1, h2⟩
        exact h ⟨hu.1.symm.trans h1, hu.2.symm.trans h2⟩
      rw [stockUpdate, if_pos hu, stockFind, stockFind,
        if_neg (by simpa using hq), if_neg hq]
    · rw [stockUpdate, if_neg hu, stockFind, stockFind]
      by_cases hq : d.warehouse_id = w ∧ d.item_id = i
      · rw [if_pos hq, if_pos hq]
      · rw [if_neg hq, if_neg hq, ih]

lemma stockFind_update_self (l : List StockDoc) (w i : String) (q : ℚ) (d : StockDoc)
    (h : stockFind l w i = some d) :
    stockFind (stockUpdate l w i q) w i = some { d with quantity := q } := by
  induction l with
  | nil => simp [stockFind] at h
  | cons e rest ih =>
    by_cases he : e.warehouse_id = w ∧ e.item_id = i
    · simp only [stockFind, if_pos he, Option.some.injEq] at h
      subst h
      simp [stockUpdate, if_pos he, stockFind, he]
    · simp only [stockFind, if_neg he] at h
      simp [stockUpdate, if_neg he, stockFind, he, ih h]

lemma stockFind_append_other (l : List StockDoc) (d : StockDoc) (w i : String)
    (h : ¬(d.warehouse_id = w ∧ d.item_id = i)) :
    stockFind (l ++ [d]) w i = stockFind l w i := by
  induction l with
  | nil => simp [stockFind, h]
  | cons e rest ih =>
    by_cases he : e.warehouse_id = w ∧ e.item_id = i
    · simp [stockFind, he]
    · simp [stockFind, he, ih]

lemma stockFind_append_self (l : List StockDoc) (d : StockDoc) (w i : String)
    (hn : stockFind l w i = none) (hd : d.warehouse_id = w ∧ d.item_id = i) :
    stockFind (l ++ [d]) w i = some d := by
  induction l with
  | nil => simp [stockFind, hd]
  | cons e rest ih =>
    by_cases he : e.warehouse_id = w ∧ e.item_id = i
    · simp [stockFind, he] at hn
    · simp only [stockFind, if_neg he] at hn
      simp [stockFind, he, ih hn]

lemma stockFind_filter_nil (l : List StockDoc) (w i : String)
    (hn : stockFind l w i = none) :
    l.filter (fun d => decide (d.warehouse_id = w) && decide (d.item_id = i)) = [] := by
  induction l with
  | nil => rfl
  | cons e rest ih =>
    by_cases he : e.warehouse_id = w ∧ e.item_id = i
    · simp [stockFind, he] at hn
    · simp only [stockFind, if_neg he] at hn
      have hb : (decide (e.warehouse_id = w) && decide (e.item_id = i)) = false := by
        simpa [Bool.and_eq_true, decide_eq_true_iff] using he
      simp [List.filter_cons, hb, ih hn]

/-! ### Lemmas about a single POST /inventory/move call -/

lemma move_reject (db : DB) (mv : InventoryMovement) (h : mv.quantity ≤ 0) :
    inventory_move db mv = (db, .error .validationError) := by
  simp [inventory_move, not_lt.mpr h]

lemma move_shipments (db : DB) (mv : InventoryMovement) :
    (inventory_move db mv).1.shipments = db.shipments := by
  by_cases h : 0 < mv.quantity
  · simp only [inventory_move, if_pos h]
  · simp [inventory_move, h]

lemma move_movements (db : DB) (mv : InventoryMovement) (h : 0 < mv.quantity) :
    (inventory_move db mv).1.movements = db.movements ++ [mv] := by
  simp only [inventory_move, if_pos h]

lemma move_val (db : DB) (mv : InventoryMovement) (h : 0 < mv.quantity) :
    (inventory_move db mv).2
      = .ok (stockQty db mv.warehouse_id mv.item_id + moveDelta mv) := by
  cases hf : stockFind db.stock mv.warehouse_id mv.item_id with
  | none =>
    simp only [inventory_move, if_pos h]
    by_cases ht : mv.type = "in" <;> simp [hf, stockQty, moveDelta, ht, sub_eq_add_neg]
  | some d =>
    simp only [inventory_move, if_pos h]
    by_cases ht : mv.type = "in" <;> simp [hf, stockQty, moveDelta, ht, sub_eq_add_neg]

lemma move_stock_none (db : DB) (mv : InventoryMovement) (h : 0 < mv.quantity)
    (hf : stockFind db.stock mv.warehouse_id mv.item_id = none) :
    (inventory_move db mv).1.stock
      = db.stock ++ [⟨mv.warehouse_id, mv.item_id, moveDelta mv⟩] := by
  simp only [inventory_move, if_pos h]
  by_cases ht : mv.type = "in" <;> simp [hf, moveDelta, ht, zero_sub]

lemma move_stock_some (db : DB) (mv : InventoryMovement) (d : StockDoc)
    (h : 0 < mv.quantity)
    (hf : stockFind db.stock mv.warehouse_id mv.item_id = some d) :
    (inventory_move db mv).1.stock
      = stockUpdate db.stock mv.warehouse_id mv.item_id (d.quantity + moveDelta mv) := by
  simp only [inventory_move, if_pos h]
  by_cases ht : mv.type = "in" <;> simp [hf, moveDelta, ht, sub_eq_add_neg]

lemma move_stockQty_self (db : DB) (mv : InventoryMovement) (h : 0 < mv.quantity) :
    stockQty (inventory_move db mv).1 mv.warehouse_id mv.item_id
      = stockQty db mv.warehouse_id mv.item_id + moveDelta mv := by
  cases hf : stockFind db.stock mv.warehouse_id mv.item_id with
  | none =>
    unfold stockQty
    rw [move_stock_none db mv h hf, stockFind_append_self _ _ _ _ hf ⟨rfl, rfl⟩, hf]
    simp
  | some d =>
    unfold stockQty
    rw [move_stock_some db mv d h hf, stockFind_update_self _ _ _ _ _ hf, hf]

lemma move_stockQty_other (db : DB) (mv : InventoryMovement) (w i : String)
    (hk : ¬(mv.warehouse_id = w ∧ mv.item_id = i)) :
    stockQty (inventory_move db mv).1 w i = stockQty db w i := by
  by_cases h : 0 < mv.quantity
  · cases hf : stockFind db.stock mv.warehouse_id mv.item_id with
    | none =>
      unfold stockQty
      rw [move_stock_none db mv h hf, stockFind_append_other _ _ _ _ hk]
    | some d =>
      unfold stockQty
      rw [move_stock_some db mv d h hf, stockFind_update_other _ _ _ _ _ _ hk]
  · simp [inventory_move, h]

/-! ### Lemmas about the replayed ledger sums -/

lemma ledgerSum_append (ms ms' : List InventoryMovement) (w i : String) :
    ledgerSum (ms ++ ms') w i = ledgerSum ms w i + ledgerSum ms' w i := by
  simp [ledgerSum]

lemma ledgerSum_single_self (mv : InventoryMovement) :
    ledgerSum [mv] mv.warehouse_id mv.item_id = moveDelta mv := by
  simp [ledgerSum]

lemma ledgerSum_single_other (mv : InventoryMovement) (w i : String)
    (hk : ¬(mv.warehouse_id = w ∧ mv.item_id = i)) :
    ledgerSum [mv] w i = 0 := by
  simp [ledgerSum, hk]

/-- One POST /inventory/move call preserves "snapshot = signed replay of the recorded
movements", for every key, with the sign convention the code applies. -/
lemma ledgerInv_step (db : DB) (mv : InventoryMovement)
    (hI : ∀ w i, stockQty db w i = ledgerSum db.movements w i) :
    ∀ w i, stockQty (inventory_move db mv).1 w i
      = ledgerSum (inventory_move db mv).1.movements w i := by
  intro w i
  by_cases hq : 0 < mv.quantity
  · rw [move_movements db mv hq, ledgerSum_append]
    by_cases hk : mv.warehouse_id = w ∧ mv.item_id = i
    · obtain ⟨h1, h2⟩ := hk
      subst h1; subst h2
      rw [move_stockQty_self db mv hq, ledgerSum_single_self, hI]
    · rw [move_stockQty_other db mv w i hk, ledgerSum_single_other mv w i hk, hI, add_zero]
  · simp only [move_reject db mv (not_lt.mp hq)]
    exact hI w i

lemma ledgerInv_applyMoves (db : DB)
    (hI : ∀ w i, stockQty db w i = ledgerSum db.movements w i) :
    ∀ ms : List InventoryMovement, ∀ w i,
      stockQty (applyMoves db ms) w i = ledgerSum (applyMoves db ms).movements w i := by
  intro ms
  induction ms generalizing db with
  | nil => exact hI
  | cons m rest ih => exact ih (inventory_move db m).1 (ledgerInv_step db m hI)

/-! ### Lemmas about the per-line movement loop of the PATCH handler -/

lemma processLines_ok (l : List InventoryMovement) :
    ∀ db : DB, (∀ m ∈ l, 0 < m.quantity) →
      (processLines db l).2 = .ok () ∧
      (processLines db l).1.movements = db.movements ++ l ∧
      (processLines db l).1.shipments = db.shipments := by
  induction l with
  | nil => intro db _; simp [processLines]
  | cons m rest ih =>
    intro db h
    have hm : 0 < m.quantity := h m (by simp)
    have hval := move_val db m hm
    obtain ⟨h1, h2, h3⟩ := ih (inventory_move db m).1 (fun x hx => h x (by simp [hx]))
    refine ⟨?_, ?_, ?_⟩
    · simp only [processLines, hval]
      exact h1
    · simp only [processLines, hval]
      rw [h2, move_movements db m hm, List.append_assoc]
      rfl
    · simp only [processLines, hval]
      rw [h3, move_shipments]

/-! ### Lemmas about PATCH /shipments/{id}/status -/

lemma update_found (db : DB) (sid : Nat) (ship : Shipment) (st : String)
    (hfind : findShipment db.shipments sid = some ship) :
    update_shipment_status db sid st = continueUpdate db sid ship st := by
  simp [update_shipment_status, hfind]

lemma outMove_pos (ship : Shipment) (hpos : ∀ it ∈ ship.items, 0 < it.quantity) :
    ∀ m ∈ ship.items.map (outMove ship), 0 < m.quantity := by
  intro m hm
  obtain ⟨it, hit, rfl⟩ := List.mem_map.mp hm
  exact hpos it hit

lemma inMove_pos (ship : Shipment) (hpos : ∀ it ∈ ship.items, 0 < it.quantity) :
    ∀ m ∈ ship.items.map (inMove ship), 0 < m.quantity := by
  intro m hm
  obtain ⟨it, hit, rfl⟩ := List.mem_map.mp hm
  exact hpos it hit

lemma update_picked (db : DB) (sid : Nat) (ship : Shipment)
    (hfind : findShipment db.shipments sid = some ship)
    (hpos : ∀ it ∈ ship.items, 0 < it.quantity) :
    (update_shipment_status db sid "picked").2 = .ok "picked" ∧
    (update_shipment_status db sid "picked").1.movements
      = db.movements ++ ship.items.map (outMove ship) := by
  obtain ⟨h1, h2, h3⟩ := processLines_ok (ship.items.map (outMove ship))
    { db with shipments := setShipmentStatus db.shipments sid "picked" }
    (outMove_pos ship hpos)
  rw [update_found db sid ship _ hfind]
  constructor
  · simp only [continueUpdate]
    norm_num +decide [h1]
  · simp only [continueUpdate]
    norm_num +decide [h1, h2]

lemma update_delivered (db : DB) (sid : Nat) (ship : Shipment) (w : String)
    (hfind : findShipment db.shipments sid = some ship)
    (hdest : ship.destination_warehouse_id = some w) (hw : w ≠ "")
    (hpos : ∀ it ∈ ship.items, 0 < it.quantity) :
    (update_shipment_status db sid "delivered").2 = .ok "delivered" ∧
    (update_shipment_status db sid "delivered").1.movements
      = db.movements ++ ship.items.map (inMove ship) := by
  have htr : truthyStr ship.destination_warehouse_id = true := by
    simp [hdest, truthyStr, hw]
  obtain ⟨h1, h2, h3⟩ := processLines_ok (ship.items.map (inMove ship))
    { db with shipments := setShipmentStatus db.shipments sid "delivered" }
    (inMove_pos ship hpos)
  rw [update_found db sid ship _ hfind]
  constructor
  · simp only [continueUpdate]
    norm_num +decide [htr, h1]
  · simp only [continueUpdate]
    norm_num +decide [htr, h1, h2]

lemma update_delivered_external (db : DB) (sid : Nat) (ship : Shipment)
    (hfind : findShipment db.shipments sid = some ship)
    (hdest : ship.destination_warehouse_id = none) :
    update_shipment_status db sid "delivered"
      = ({ db with shipments := setShipmentStatus db.shipments sid "delivered" },
         .ok "delivered") := by
  rw [update_found db sid ship _ hfind]
  simp +decide [continueUpdate, hdest, truthyStr]

/-- Replaying with the code's sign convention agrees with the spec's
`in − out` replay as long as every recorded movement is typed "in" or "out". -/
lemma ledgerSum_eq_inSum_sub_outSum (ms : List InventoryMovement) (w i : String)
    (h : ∀ m ∈ ms, m.type = "in" ∨ m.type = "out") :
    ledgerSum ms w i = inSum ms w i - outSum ms w i := by
  induction ms with
  | nil => simp [ledgerSum, inSum, outSum]
  | cons m rest ih =>
    have hrest := ih (fun x hx => h x (by simp [hx]))
    by_cases hk : m.warehouse_id = w ∧ m.item_id = i
    · rcases h m (by simp) with ht | ht
      · simp only [ledgerSum, inSum, outSum, List.map_cons, List.sum_cons, moveDelta,
          hk.1, hk.2, ht] at hrest ⊢
        norm_num +decide at hrest ⊢
        rw [hrest]
        ring
      · have hti : m.type ≠ "in" := by rw [ht]; decide
        simp only [ledgerSum, inSum, outSum, List.map_cons, List.sum_cons, moveDelta,
          hk.1, hk.2, ht] at hrest ⊢
        norm_num +decide at hrest ⊢
        rw [hrest]
        ring
    · simp only [ledgerSum, inSum, outSum, List.map_cons, List.sum_cons] at hrest ⊢
      have h1 : ¬(m.warehouse_id = w ∧ m.item_id = i ∧ m.type = "in") :=
        fun ⟨a, b, _⟩ => hk ⟨a, b⟩
      have h2 : ¬(m.warehouse_id = w ∧ m.item_id = i ∧ m.type = "out") :=
        fun ⟨a, b, _⟩ => hk ⟨a, b⟩
      rw [if_neg hk, if_neg h1, if_neg h2]
      rw [zero_add, zero_add, zero_add]
      exact hrest

/-! ### Concrete inputs used by the claim theorems -/

/-- A well-typed "in" movement of 5 units of item A into warehouse W1. -/
def mvIn5 : InventoryMovement :=
  { type := "in", warehouse_id := "W1", item_id := "A", quantity := 5 }

/-- A movement whose `type` is the unknown string "xyz" (neither "in" nor "out"). -/
def mvXyz : InventoryMovement :=
  { type := "xyz", warehouse_id := "W1", item_id := "A", quantity := 5 }

/-- A movement whose `type` is the unknown string "transfer". -/
def mvTransfer : InventoryMovement :=
  { type := "transfer", warehouse_id := "W1", item_id := "A", quantity := 3 }

/-- An "in" movement with quantity 0 (rejected by the pydantic `gt=0` bound). -/
def mvZero : InventoryMovement :=
  { type := "in", warehouse_id := "W1", item_id := "A", quantity := 0 }

/-- The spec §8 scenario shipment SHP-1: origin W1, destination W2, one line (A, 5). -/
def shipScn : Shipment :=
  { shipment_no := "SHP-1", origin_warehouse_id := "W1",
    destination_warehouse_id := some "W2", destination_name := none,
    status := "created", items := [⟨"A", 5⟩] }

/-- Initial store of the scenario: stock(W1,A)=10, stock(W2,A)=0, SHP-1 created. -/
def dbScn : DB :=
  { movements := [], stock := [⟨"W1", "A", 10⟩, ⟨"W2", "A", 0⟩],
    shipments := [(1, shipScn)] }

/-- Store after `PATCH /shipments/1/status {picked}` on the scenario store. -/
def dbPicked : DB := (update_shipment_status dbScn 1 "picked").1

/-- Store after the further `PATCH {in_transit}`. -/
def dbTransit : DB := (update_shipment_status dbPicked 1 "in_transit").1

/-- Store after the further `PATCH {delivered}`. -/
def dbDelivered : DB := (update_shipment_status dbTransit 1 "delivered").1

/-- An externally-destined shipment (destination_warehouse_id = None), already
in transit, whose picked out-movement is the only recorded movement. -/
def shipExt : Shipment :=
  { shipment_no := "SHP-2", origin_warehouse_id := "W1",
    destination_warehouse_id := none, destination_name := some "Customer X",
    status := "in_transit", items := [⟨"A", 5⟩] }

/-- Store holding the externally-destined shipment. -/
def dbExt : DB :=
  { movements := [outMove shipExt ⟨"A", 5⟩], stock := [⟨"W1", "A", 5⟩],
    shipments := [(2, shipExt)] }

/-- A warehouse-to-warehouse shipment already in transit, used to witness the
delivered-emission property. -/
def shipInT : Shipment :=
  { shipment_no := "SHP-3", origin_warehouse_id := "W1",
    destination_warehouse_id := some "W2", destination_name := none,
    status := "in_transit", items := [⟨"A", 5⟩] }

/-- Store holding `shipInT`. -/
def dbInT : DB :=
  { movements := [], stock := [], shipments := [(3, shipInT)] }

/-! ### Claim theorems -/

/-- C1 (counterexample): the claim's invariant `stock = Σ in-movements − Σ
out-movements` fails after one successful POST /inventory/move whose type is
"xyz": the call is accepted and returns/stores quantity −5, yet the movement is
neither an "in" nor an "out" movement, so the claimed replay sum is 0 ≠ −5. -/
theorem C1_counterexample :
    (inventory_move freshDB mvXyz).2 = .ok (-5) ∧
    stockQty (inventory_move freshDB mvXyz).1 "W1" "A" = -5 ∧
    inSum (inventory_move freshDB mvXyz).1.movements "W1" "A"
      - outSum (inventory_move freshDB mvXyz).1.movements "W1" "A" = 0 ∧
    stockQty (inventory_move freshDB mvXyz).1 "W1" "A"
      ≠ inSum (inventory_move freshDB mvXyz).1.movements "W1" "A"
        - outSum (inventory_move freshDB mvXyz).1.movements "W1" "A" := by
  refine ⟨?_, ?_, ?_, ?_⟩ <;>
    norm_num +decide [inventory_move, freshDB, mvXyz, stockFind, stockQty, inSum, outSum]

/-- C1 (amended): after any sequence of POST /inventory/move calls from the empty
store, the stored stock of every key equals the signed replay of its recorded
movements with the sign convention the code applies (`+quantity` for type "in",
`−quantity` for every other type); every single call preserves that invariant; and
on sequences whose movements are all typed "in" or "out" this replay coincides with
the claim's `Σ in − Σ out`. -/
theorem C1_ledger_replay :
    (∀ ms : List InventoryMovement, ∀ w i : String,
      stockQty (applyMoves freshDB ms) w i
        = ledgerSum (applyMoves freshDB ms).movements w i) ∧
    (∀ db : DB, ∀ mv : InventoryMovement,
      (∀ w i, stockQty db w i = ledgerSum db.movements w i) →
      ∀ w i, stockQty (inventory_move db mv).1 w i
        = ledgerSum (inventory_move db mv).1.movements w i) ∧
    (∀ ms : List InventoryMovement, ∀ w i : String,
      (∀ m ∈ ms, m.type = "in" ∨ m.type = "out") →
      ledgerSum ms w i = inSum ms w i - outSum ms w i) :=
  ⟨fun ms w i => ledgerInv_applyMoves freshDB (fun _ _ => rfl) ms w i,
   fun db mv hI => ledgerInv_step db mv hI,
   fun ms w i h => ledgerSum_eq_inSum_sub_outSum ms w i h⟩

/-- C1 (witness): the invariant-preservation part applied at the empty store and a
concrete "in" movement, and the replay-agreement part at that one-movement ledger. -/
theorem C1_witness :
    stockQty (inventory_move freshDB mvIn5).1 "W1" "A"
      = ledgerSum (inventory_move freshDB mvIn5).1.movements "W1" "A" ∧
    ledgerSum [mvIn5] "W1" "A" = inSum [mvIn5] "W1" "A" - outSum [mvIn5] "W1" "A" :=
  ⟨C1_ledger_replay.2.1 freshDB mvIn5 (fun _ _ => rfl) "W1" "A",
   C1_ledger_replay.2.2 [mvIn5] "W1" "A" (by decide)⟩

/-- C4: a movement request with quantity ≤ 0 is rejected by the schema validation
(`gt=0`), surfaced as a validation error; no movement record is persisted and the
stock quantity of every key is unchanged. -/
theorem C4_nonpositive_rejected (db : DB) (mv : InventoryMovement)
    (h : mv.quantity ≤ 0) :
    inventory_move db mv = (db, .error .validationError) ∧
    (inventory_move db mv).1.movements = db.movements ∧
    ∀ w i, stockQty (inventory_move db mv).1 w i = stockQty db w i := by
  have hr := move_reject db mv h
  exact ⟨hr, by rw [hr], fun w i => by rw [hr]⟩

/-- C4 (witness): the quantity-0 movement is rejected on the empty store. -/
theorem C4_witness :
    mvZero.quantity ≤ 0 ∧
    inventory_move freshDB mvZero = (freshDB, .error .validationError) :=
  ⟨by decide, (C4_nonpositive_rejected freshDB mvZero (by decide)).1⟩

/-- C5 (code evaluated at the failing input): a movement typed "transfer" — neither
"in" nor "out" — is accepted by POST /inventory/move, its record is persisted, and
it is applied as an out-movement: the stock of (W1, A) becomes −3, not an error. -/
theorem C5_unknown_type_accepted :
    (inventory_move freshDB mvTransfer).2 = .ok (-3) ∧
    (inventory_move freshDB mvTransfer).1.movements = [mvTransfer] ∧
    stockQty (inventory_move freshDB mvTransfer).1 "W1" "A" = -3 := by
  refine ⟨?_, ?_, ?_⟩ <;>
    norm_num +decide [inventory_move, freshDB, mvTransfer, stockFind, stockQty]

/-- C6 (counterexample): on a fresh store, GET /inventory/stock for (W1, A) — a pair
with no recorded movements — returns the empty list; no returned document reports
quantity 0 for the pair (the claimed zero-quantity row does not exist). -/
theorem C6_counterexample :
    get_stock freshDB (some "W1") (some "A") 200 = [] ∧
    ¬ ∃ d ∈ get_stock freshDB (some "W1") (some "A") 200,
        d.warehouse_id = "W1" ∧ d.item_id = "A" ∧ d.quantity = 0 := by
  constructor <;> norm_num +decide [get_stock, freshDB, truthyStr]

/-- C6 (amended): for a pair with no stock document (in particular a pair with no
movements, as only movements create stock documents), GET /inventory/stock succeeds
with the empty list rather than an error or a zero-quantity row. -/
theorem C6_no_entry_empty_list (db : DB) (w i : String) (L : Nat)
    (hw : w ≠ "") (hi : i ≠ "") (hn : stockFind db.stock w i = none) :
    get_stock db (some w) (some i) L = [] := by
  have hfe := stockFind_filter_nil db.stock w i hn
  have hp : (fun d : StockDoc =>
        (if truthyStr (some w) then decide (d.warehouse_id = (some w).getD "") else true)
        && (if truthyStr (some i) then decide (d.item_id = (some i).getD "") else true))
      = fun d : StockDoc => decide (d.warehouse_id = w) && decide (d.item_id = i) := by
    funext d
    simp [truthyStr, hw, hi]
  unfold get_stock
  rw [hp, hfe]
  simp

/-- C6 (witness): the amended statement evaluated on the fresh store at (W1, A). -/
theorem C6_witness :
    ("W1" : String) ≠ "" ∧ get_stock freshDB (some "W1") (some "A") 7 = [] :=
  ⟨by decide, C6_no_entry_empty_list freshDB "W1" "A" 7 (by decide) (by decide) rfl⟩

/-- C8: the movement record is persisted before the stock snapshot is touched. When
persistence fails, the storage error is surfaced and the state — in particular every
stock quantity — is unchanged; when it succeeds, the movement is appended and the
returned quantity reflects the signed update. -/
theorem C8_persist_before_ledger (db : DB) (mv : InventoryMovement)
    (h : 0 < mv.quantity) :
    inventory_move_storage false db mv = (db, .error .storageError) ∧
    (∀ w i, stockQty (inventory_move_storage false db mv).1 w i = stockQty db w i) ∧
    (inventory_move_storage true db mv).1.movements = db.movements ++ [mv] ∧
    (inventory_move_storage true db mv).2
      = .ok (stockQty db mv.warehouse_id mv.item_id + moveDelta mv) := by
  have hfail : inventory_move_storage false db mv = (db, .error .storageError) := by
    simp [inventory_move_storage, h]
  refine ⟨hfail, fun w i => by rw [hfail], ?_, ?_⟩
  · simp [inventory_move_storage, h, move_movements db mv h]
  · simp [inventory_move_storage, h, move_val db mv h]

/-- C8 (witness): the storage-failure and success paths evaluated at a concrete
in-movement on the empty store. -/
theorem C8_witness :
    (0 : ℚ) < mvIn5.quantity ∧
    inventory_move_storage false freshDB mvIn5 = (freshDB, .error .storageError) :=
  ⟨by decide, (C8_persist_before_ledger freshDB mvIn5 (by decide)).1⟩

/-- C10: an accepted movement whose type is any string other than "in" decreases the
stored stock of its key by its quantity (and that value is returned); when no stock
document existed for the key, one is created holding minus the quantity. -/
theorem C10_nonin_decrements (db : DB) (mv : InventoryMovement)
    (hq : 0 < mv.quantity) (ht : mv.type ≠ "in") :
    (inventory_move db mv).2
      = .ok (stockQty db mv.warehouse_id mv.item_id - mv.quantity) ∧
    stockQty (inventory_move db mv).1 mv.warehouse_id mv.item_id
      = stockQty db mv.warehouse_id mv.item_id - mv.quantity ∧
    (stockFind db.stock mv.warehouse_id mv.item_id = none →
      stockFind (inventory_move db mv).1.stock mv.warehouse_id mv.item_id
        = some ⟨mv.warehouse_id, mv.item_id, -mv.quantity⟩) := by
  have hd : moveDelta mv = -mv.quantity := by simp [moveDelta, ht]
  refine ⟨?_, ?_, ?_⟩
  · rw [move_val db mv hq, hd, ← sub_eq_add_neg]
  · rw [move_stockQty_self db mv hq, hd, ← sub_eq_add_neg]
  · intro hf
    rw [move_stock_none db mv hq hf, stockFind_append_self _ _ _ _ hf ⟨rfl, rfl⟩, hd]

/-- C10 (witness): the "transfer"-typed movement on the empty store deducts its
quantity from the (fresh) key. -/
theorem C10_witness :
    (0 : ℚ) < mvTransfer.quantity ∧ mvTransfer.type ≠ "in" ∧
    stockQty (inventory_move freshDB mvTransfer).1 mvTransfer.warehouse_id
        mvTransfer.item_id
      = stockQty freshDB mvTransfer.warehouse_id mvTransfer.item_id
        - mvTransfer.quantity :=
  ⟨by decide, by decide,
   (C10_nonin_decrements freshDB mvTransfer (by decide) (by decide)).2.1⟩

/-- C2 (code evaluated at the failing input): the handler performs no transition
validation. After created→picked succeeds on the scenario store, re-submitting
"picked" succeeds again instead of failing, keeps status "picked", emits a second
out-movement and deducts the stock of (W1, A) a second time (5 → 0). -/
theorem C2_repeat_picked_double_deducts :
    (update_shipment_status dbScn 1 "picked").2 = .ok "picked" ∧
    shipmentStatus dbPicked 1 = some "picked" ∧
    stockQty dbPicked "W1" "A" = 5 ∧
    (update_shipment_status dbPicked 1 "picked").2 = .ok "picked" ∧
    stockQty (update_shipment_status dbPicked 1 "picked").1 "W1" "A" = 0 ∧
    (update_shipment_status dbPicked 1 "picked").1.movements.length = 2 := by
  refine ⟨?_, ?_, ?_, ?_, ?_, ?_⟩ <;>
    norm_num +decide [update_shipment_status, continueUpdate, processLines,
      findShipment, setShipmentStatus, inventory_move, stockFind, stockUpdate,
      outMove, dbScn, dbPicked, shipScn, truthyStr, stockQty, shipmentStatus]

/-- C3: the spec §8 scenario holds on the code — picked deducts stock(W1,A) 10→5,
in_transit changes no stock, delivered adds stock(W2,A) 0→5 with stock(W1,A) left
at 5 — and in general "picked" appends exactly one out-movement per line against
the origin warehouse while "delivered" (with a destination warehouse) appends
exactly one in-movement per line against the destination warehouse. -/
theorem C3_scenario_and_emission :
    ((update_shipment_status dbScn 1 "picked").2 = .ok "picked" ∧
     stockQty dbPicked "W1" "A" = 5 ∧ stockQty dbPicked "W2" "A" = 0 ∧
     (update_shipment_status dbPicked 1 "in_transit").2 = .ok "in_transit" ∧
     dbTransit.stock = dbPicked.stock ∧
     (update_shipment_status dbTransit 1 "delivered").2 = .ok "delivered" ∧
     stockQty dbDelivered "W2" "A" = 5 ∧ stockQty dbDelivered "W1" "A" = 5) ∧
    (∀ db : DB, ∀ sid : Nat, ∀ ship : Shipment,
      findShipment db.shipments sid = some ship →
      (∀ it ∈ ship.items, 0 < it.quantity) →
      (update_shipment_status db sid "picked").1.movements
        = db.movements ++ ship.items.map (outMove ship)) ∧
    (∀ db : DB, ∀ sid : Nat, ∀ ship : Shipment, ∀ w : String,
      findShipment db.shipments sid = some ship →
      ship.destination_warehouse_id = some w → w ≠ "" →
      (∀ it ∈ ship.items, 0 < it.quantity) →
      (update_shipment_status db sid "delivered").1.movements
        = db.movements ++ ship.items.map (inMove ship)) := by
  refine ⟨?_, ?_, ?_⟩
  · refine ⟨?_, ?_, ?_, ?_, ?_, ?_, ?_, ?_⟩ <;>
      norm_num +decide [update_shipment_status, continueUpdate, processLines,
        findShipment, setShipmentStatus, inventory_move, stockFind, stockUpdate,
        outMove, inMove, dbScn, dbPicked, dbTransit, dbDelivered, shipScn,
        truthyStr, stockQty]
  · exact fun db sid ship hf hp => (update_picked db sid ship hf hp).2
  · exact fun db sid ship w hf hd hw hp => (update_delivered db sid ship w hf hd hw hp).2

/-- C3 (witness): the emission conjuncts evaluated at concrete stores — the scenario
store for "picked" and an in-transit internal shipment for "delivered". -/
theorem C3_witness :
    (update_shipment_status dbScn 1 "picked").1.movements
      = dbScn.movements ++ shipScn.items.map (outMove shipScn) ∧
    (update_shipment_status dbInT 3 "delivered").1.movements
      = dbInT.movements ++ shipInT.items.map (inMove shipInT) :=
  ⟨C3_scenario_and_emission.2.1 dbScn 1 shipScn rfl (by decide),
   C3_scenario_and_emission.2.2 dbInT 3 shipInT "W2" rfl rfl (by decide) (by decide)⟩

/-- C7: delivering a shipment whose destination_warehouse_id is absent creates no
movement and changes no stock document: only the shipment status is rewritten and
the call reports success, so the shipment's only movements remain those emitted at
"picked". -/
theorem C7_external_destination (db : DB) (sid : Nat) (ship : Shipment)
    (hfind : findShipment db.shipments sid = some ship)
    (hdest : ship.destination_warehouse_id = none) :
    (update_shipment_status db sid "delivered").1.movements = db.movements ∧
    (update_shipment_status db sid "delivered").1.stock = db.stock ∧
    (update_shipment_status db sid "delivered").2 = .ok "delivered" := by
  rw [update_delivered_external db sid ship hfind hdest]
  exact ⟨rfl, rfl, rfl⟩

/-- C7 (witness): delivering the externally-destined shipment SHP-2 leaves the
movement log (one picked out-movement) and the stock collection untouched. -/
theorem C7_witness :
    (update_shipment_status dbExt 2 "delivered").1.movements = dbExt.movements ∧
    (update_shipment_status dbExt 2 "delivered").1.stock = dbExt.stock ∧
    (update_shipment_status dbExt 2 "delivered").2 = .ok "delivered" :=
  C7_external_destination dbExt 2 shipExt rfl rfl

/-- C9 (code evaluated at the failing schedule): under the interleaving in which two
callers of PATCH …/status both read the shipment in status "created" before either
writes, both "picked" requests succeed — neither receives a concurrency error — and
the out-movement set is recorded twice: stock(W1,A) ends at 0 instead of 5 and two
movements exist. The handler performs an unconditional write, not a compare-and-set. -/
theorem C9_race_both_succeed :
    (raceBothRead dbScn 1 "picked").2.1 = .ok "picked" ∧
    (raceBothRead dbScn 1 "picked").2.2 = .ok "picked" ∧
    stockQty (raceBothRead dbScn 1 "picked").1 "W1" "A" = 0 ∧
    (raceBothRead dbScn 1 "picked").1.movements.length = 2 := by
  refine ⟨?_, ?_, ?_, ?_⟩ <;>
    norm_num +decide [raceBothRead, continueUpdate, processLines, findShipment,
      setShipmentStatus, inventory_move, stockFind, stockUpdate, outMove,
      dbScn, shipScn, truthyStr, stockQty]

end Inventory
